import Mathlib

/-!
Shallow embedding of the tracking core of `auto_tracker.py`
(turnanalysis/camera-recorder): the course map (gate waypoints,
interpolation, look-ahead zoom), the subject selector, the start-trigger
debounce, the gate-advancement step of the tracking loop, and the
proportional PTZ control law.

Numeric conventions: Python floats are modelled as exact rationals (ℚ),
Python ints as ℤ (indices as ℕ).  Python `int(x)` truncates toward zero,
modelled by `pyTrunc`.  Euclidean distances in `select_racer` are compared
via their squares (the square root is strictly monotone on nonnegatives,
so both the argmin and the `dist > 0.3 * diag` threshold are preserved
exactly).
-/

/-- Python `int(x)` on a rational: truncation toward zero. -/
def pyTrunc (q : ℚ) : ℤ := if 0 ≤ q then ⌊q⌋ else ⌈q⌉

/-- A bounding box `(x1, y1, x2, y2)` in pixel coordinates. -/
abbrev BBox := ℚ × ℚ × ℚ × ℚ

/-- Centroid of a bounding box: `((x1+x2)/2, (y1+y2)/2)`. -/
def bboxCentroid (b : BBox) : ℚ × ℚ :=
  ((b.1 + b.2.2.1) / 2, (b.2.1 + b.2.2.2) / 2)

/-- Squared Euclidean distance between two points. -/
def distSq (p q : ℚ × ℚ) : ℚ := (p.1 - q.1) ^ 2 + (p.2 - q.2) ^ 2

/-- A YOLO detection: bounding box plus confidence
(`YOLODetector.detect` result entries). -/
structure Det where
  bbox : BBox
  conf : ℚ
deriving DecidableEq

/-- Centroid of a detection's bounding box. -/
def detCentroid (d : Det) : ℚ × ℚ := bboxCentroid d.bbox

/-- A start-trigger zone (`trigger_zone` dict of a gate).  `bbox_pct` and
`direction` are optional keys read with `.get` defaults in the code, so they
are `Option`s here; `none` stands for the key being absent. -/
structure TriggerZone where
  enabled : Bool
  bbox_pct : Option (ℚ × ℚ × ℚ × ℚ)
  direction : Option String
deriving DecidableEq

/-- A course gate waypoint (entries of `config['gates']`). -/
structure Gate where
  id : ℕ
  pan : ℚ
  tilt : ℚ
  zoom : ℤ
  trigger_zone : Option TriggerZone
deriving DecidableEq

/-- A pan/tilt/zoom triple as returned by `CourseMap.interpolate_ptz`. -/
structure PTZ where
  pan : ℚ
  tilt : ℚ
  zoom : ℤ
deriving DecidableEq

/-- The course map: ordered gates plus the look-ahead tuning parameters
(`CourseMap.__init__`; `gates_ahead` defaults to 2, `zoom_margin` to 1.2). -/
structure CourseMap where
  gates : List Gate
  gates_ahead : ℕ
  zoom_margin : ℚ
deriving DecidableEq

namespace CourseMap

/-- `CourseMap.num_gates`. -/
def num_gates (c : CourseMap) : ℕ := c.gates.length

/-- `CourseMap.get_gate_by_index`: bounds-checked list indexing. -/
def get_gate_by_index (c : CourseMap) (i : ℕ) : Option Gate := c.gates.get? i

/-- Whether a gate has a trigger zone present and enabled
(the `tz and tz.get('enabled', False)` test). -/
def gateHasEnabledZone (g : Gate) : Bool :=
  (g.trigger_zone.map (fun z => z.enabled)).getD false

/-- `CourseMap.get_start_gate`: first gate with an enabled trigger zone,
else the first gate, else none. -/
def get_start_gate (c : CourseMap) : Option Gate :=
  match c.gates.find? gateHasEnabledZone with
  | some g => some g
  | none => c.gates.head?

/-- `CourseMap.get_start_index`: index of the first gate with an enabled
trigger zone, else 0. -/
def get_start_index (c : CourseMap) : ℕ :=
  match c.gates.findIdx? gateHasEnabledZone with
  | some i => i
  | none => 0

/-- Unchecked `self.gates[i]` indexing (used by the code only in bounds). -/
def gAt (c : CourseMap) (i : ℕ) : Gate := c.gates.getD i ⟨0, 0, 0, 0, none⟩

/-- `CourseMap.interpolate_ptz`: clamp progress to [0,1], linearly
interpolate pan/tilt, truncate the interpolated zoom with `int(...)`. -/
def interpolate_ptz (a b : Gate) (progress : ℚ) : PTZ :=
  let t := max 0 (min 1 progress)
  { pan := a.pan + (b.pan - a.pan) * t
    tilt := a.tilt + (b.tilt - a.tilt) * t
    zoom := pyTrunc ((a.zoom : ℚ) + ((b.zoom : ℚ) - (a.zoom : ℚ)) * t) }

/-- `CourseMap.compute_zoom_for_span`: look-ahead zoom.
`end_index = min(i + gates_ahead, n - 1)`; early return of the raw gate
zoom when `end_index <= i`; otherwise average the zooms over
`gates[i : end_index+1]`, divide by `zoom_margin` only when the pan span
is nonzero, and floor the truncated result at 1. -/
def compute_zoom_for_span (c : CourseMap) (i : ℕ) : ℤ :=
  let n := c.gates.length
  let end_index := min (i + c.gates_ahead) (n - 1)
  if end_index ≤ i then (c.gAt i).zoom
  else
    let pan_span := |(c.gAt end_index).pan - (c.gAt i).pan|
    let seg := (c.gates.drop i).take (end_index - i + 1)
    let avg_zoom : ℚ := (seg.map (fun g => (g.zoom : ℚ))).sum / ((end_index - i + 1 : ℕ) : ℚ)
    let target : ℚ :=
      if 0 < pan_span then avg_zoom / c.zoom_margin
      else ((c.gAt i).zoom : ℚ)
    max 1 (pyTrunc target)

end CourseMap

/-! ## Subject selector (`YOLODetector.select_racer`) -/

namespace YOLODetector

/-- The selection loop of `select_racer`: starting from an accumulator
`(best, best_dist_sq)`, replace it whenever a detection is strictly closer
to the previous centroid.  Distances are compared squared. -/
def nearestFold (pc : ℚ × ℚ) (acc : Det × ℚ) : List Det → Det × ℚ
  | [] => acc
  | d :: rest =>
    let ds := distSq (detCentroid d) pc
    if ds < acc.2 then nearestFold pc (d, ds) rest
    else nearestFold pc acc rest

/-- The loop of `select_racer` with `best = None, best_dist = inf` initial
state: the first detection always beats infinity, so on a nonempty list the
fold starts from the head. -/
def selectNearest (pc : ℚ × ℚ) : List Det → Option (Det × ℚ)
  | [] => none
  | d :: rest => some (nearestFold pc (d, distSq (detCentroid d) pc) rest)

/-- Area of a detection's bounding box, the `max` key of the
no-prior-bbox branch. -/
def detArea (d : Det) : ℚ :=
  (d.bbox.2.2.1 - d.bbox.1) * (d.bbox.2.2.2 - d.bbox.2.1)

/-- Python `max(detections, key=area)`: first detection of maximal area
(ties keep the earlier element, as Python `max` does). -/
def largestFold (acc : Det) : List Det → Det
  | [] => acc
  | d :: rest =>
    if detArea acc < detArea d then largestFold d rest
    else largestFold acc rest

/-- `YOLODetector.select_racer`.  `frame_shape` is `(h, w)` (the first two
components of a numpy shape); `none` models passing `frame_shape=None`, in
which case the `if frame_shape and best:` guard is skipped.  The
re-identification threshold `best_dist > diag * 0.3` is compared squared:
`best_dist_sq > (w^2 + h^2) * 9/100`. -/
def select_racer (detections : List Det) (prev_bbox : Option BBox)
    (frame_shape : Option (ℚ × ℚ)) : Option Det :=
  match detections with
  | [] => none
  | d :: rest =>
    match prev_bbox with
    | some pb =>
      let pc := bboxCentroid pb
      match selectNearest pc (d :: rest) with
      | none => none
      | some (best, bestDistSq) =>
        match frame_shape with
        | some (h, w) =>
          if (w ^ 2 + h ^ 2) * (9 / 100) < bestDistSq then none
          else some best
        | none => some best
    | none => some (largestFold d rest)

end YOLODetector

/-! ## Tracking configuration (`RacerTracker.__init__` tuning values) -/

/-- The tracking tuning parameters read from `config['tracking']`
(defaults: dead zones 0.05 / 0.08, max speeds 70 / 40, anticipation 0.2,
gate-advance threshold 0.15, racer frame position 0.4). -/
structure TrackConfig where
  pan_dead_zone : ℚ
  tilt_dead_zone : ℚ
  max_pan_speed : ℚ
  max_tilt_speed : ℚ
  anticipation : ℚ
  gate_advance_pct : ℚ
  racer_frame_pos : ℚ
deriving DecidableEq

/-- The default tuning values of `RacerTracker.__init__`. -/
def defaultTrackConfig : TrackConfig :=
  { pan_dead_zone := 1/20
    tilt_dead_zone := 2/25
    max_pan_speed := 70
    max_tilt_speed := 40
    anticipation := 1/5
    gate_advance_pct := 3/20
    racer_frame_pos := 2/5 }

namespace RacerTracker

/-! ## Start trigger (`RacerTracker._check_start_trigger`) -/

/-- Whether a detection's centroid lies inside the trigger zone rectangle
(inclusive bounds, zone given in frame fractions; `bbox_pct` defaults to
`[0.3, 0.2, 0.7, 0.8]`).  `fs = (h, w)` is the frame shape. -/
def detInZone (z : TriggerZone) (fs : ℚ × ℚ) (d : Det) : Bool :=
  let p := z.bbox_pct.getD (3/10, 2/10, 7/10, 8/10)
  let zx1 := fs.2 * p.1
  let zy1 := fs.1 * p.2.1
  let zx2 := fs.2 * p.2.2.1
  let zy2 := fs.1 * p.2.2.2
  let cc := detCentroid d
  decide (zx1 ≤ cc.1 ∧ cc.1 ≤ zx2 ∧ zy1 ≤ cc.2 ∧ cc.2 ≤ zy2)

/-- `RacerTracker._check_start_trigger`, with the mutable
`self.frames_in_zone` made explicit: takes the counter before the frame and
returns `(fired, counter after the frame)`.  Mirrors the code exactly:
missing or disabled zone returns without firing; for `direction = 'exit'`
the counter increments while a detection is in the zone, fires (and resets)
when the counter had reached 3 and a detection remains in frame, resets
without firing when no detection exists anywhere, and is otherwise left
unchanged; for `direction = 'enter'` it increments inside the zone and
fires at 3. -/
def check_start_trigger (c : CourseMap) (detections : List Det)
    (fs : ℚ × ℚ) (frames_in_zone : ℕ) : Bool × ℕ :=
  match c.get_start_gate with
  | none => (false, frames_in_zone)
  | some sg =>
    match sg.trigger_zone with
    | none => (false, frames_in_zone)
    | some z =>
      if z.enabled = false then (false, frames_in_zone)
      else
        let person_in_zone := detections.any (detInZone z fs)
        let person_in_frame := !detections.isEmpty
        let dir := z.direction.getD "exit"
        if dir = "exit" then
          if person_in_zone then (false, frames_in_zone + 1)
          else if 3 ≤ frames_in_zone ∧ person_in_frame = true then (true, 0)
          else if person_in_frame = false then (false, 0)
          else (false, frames_in_zone)
        else if dir = "enter" then
          if person_in_zone then
            if 3 ≤ frames_in_zone + 1 then (true, frames_in_zone + 1)
            else (false, frames_in_zone + 1)
          else (false, frames_in_zone)
        else (false, frames_in_zone)

/-! ## Gate advancement (`RacerTracker._check_gate_advance` and the
`STATE_TRACKING` branch of `RacerTracker.run`) -/

/-- `RacerTracker._check_gate_advance`: true when the racer centroid has
crossed into the leading-edge band of the frame in the direction of travel.
`fs = (h, w)`. -/
def check_gate_advance (cfg : TrackConfig) (c : CourseMap)
    (racer_bbox : BBox) (fs : ℚ × ℚ) (current_gate_index : ℕ) : Bool :=
  let frame_w := fs.2
  let cx := (racer_bbox.1 + racer_bbox.2.2.1) / 2
  let cur_gate := c.get_gate_by_index current_gate_index
  let next_idx := min (current_gate_index + 1) (c.num_gates - 1)
  let next_gate := c.get_gate_by_index next_idx
  match cur_gate, next_gate with
  | some cg, some ng =>
    if c.num_gates - 1 ≤ current_gate_index then false
    else
      let pan_direction := ng.pan - cg.pan
      if pan_direction < 0 then
        decide (cx < frame_w * cfg.gate_advance_pct)
      else
        decide (frame_w * (1 - cfg.gate_advance_pct) < cx)
  | _, _ => false

/-- One gate-index update of the `STATE_TRACKING` branch of
`RacerTracker.run`: when `_check_gate_advance` fires, the index becomes
`min(index + 1, num_gates - 1)`, otherwise it is unchanged. -/
def gateAdvanceStep (cfg : TrackConfig) (c : CourseMap)
    (inp : BBox × (ℚ × ℚ)) (i : ℕ) : ℕ :=
  if check_gate_advance cfg c inp.1 inp.2 i then
    min (i + 1) (c.num_gates - 1)
  else i

/-- The trace of `current_gate_index` over a TRACKING session: the entry
action of `STATE_TRACKING` (`_transition_to`) sets the index to the
course's start index, then each frame with a selected racer applies
`gateAdvanceStep`.  The trace records the index before any frame and after
every frame. -/
def sessionTrace (cfg : TrackConfig) (c : CourseMap)
    (inputs : List (BBox × (ℚ × ℚ))) : List ℕ :=
  inputs.scanl (fun i inp => gateAdvanceStep cfg c inp i) c.get_start_index

/-! ## Control law (`RacerTracker._compute_ptz_correction`) -/

/-- The travel-direction sign used by `_compute_ptz_correction` and the
stabilizer: the pan delta between the current gate and the next gate
(clamped to the last index), −1 when either lookup fails. -/
def panDirection (c : CourseMap) (current_gate_index : ℕ) : ℚ :=
  match c.get_gate_by_index current_gate_index,
        c.get_gate_by_index (min (current_gate_index + 1) (c.num_gates - 1)) with
  | some cg, some ng => ng.pan - cg.pan
  | _, _ => -1

/-- The desired racer x-position in frame: the trailing side relative to
the travel direction (`frame_w * (1 - racer_frame_pos)` when panning
toward lower pan values, `frame_w * racer_frame_pos` otherwise). -/
def desiredCx (cfg : TrackConfig) (c : CourseMap) (current_gate_index : ℕ)
    (fs : ℚ × ℚ) : ℚ :=
  if panDirection c current_gate_index < 0 then fs.2 * (1 - cfg.racer_frame_pos)
  else fs.2 * cfg.racer_frame_pos

/-- The raw normalized pan-axis error of `_compute_ptz_correction`
(before the dead zone and anticipation): pixel error over half the frame
width. -/
def normErrorX (cfg : TrackConfig) (c : CourseMap) (current_gate_index : ℕ)
    (racer_bbox : BBox) (fs : ℚ × ℚ) : ℚ :=
  ((racer_bbox.1 + racer_bbox.2.2.1) / 2 - desiredCx cfg c current_gate_index fs)
    / (fs.2 / 2)

/-- The raw normalized tilt-axis error of `_compute_ptz_correction`:
pixel error from the vertical frame center over half the frame height. -/
def normErrorY (racer_bbox : BBox) (fs : ℚ × ℚ) : ℚ :=
  ((racer_bbox.2.1 + racer_bbox.2.2.2) / 2 - fs.1 * (1/2)) / (fs.1 / 2)

/-- `RacerTracker._compute_ptz_correction`: proportional control with
per-axis dead zones applied to the normalized errors, then the pan-axis
anticipation bias, then gain `max_speed / 0.7` and clamping to
`[-max_speed, max_speed]`, truncated to int.  Returns
`(pan_speed, tilt_speed, pan_direction)`.  `fs = (h, w)`. -/
def compute_ptz_correction (cfg : TrackConfig) (c : CourseMap)
    (current_gate_index : ℕ) (racer_bbox : BBox) (fs : ℚ × ℚ) :
    ℤ × ℤ × ℚ :=
  let pan_direction := panDirection c current_gate_index
  let norm_error_x0 := normErrorX cfg c current_gate_index racer_bbox fs
  let norm_error_y0 := normErrorY racer_bbox fs
  let norm_error_x1 := if |norm_error_x0| < cfg.pan_dead_zone then 0 else norm_error_x0
  let norm_error_y1 := if |norm_error_y0| < cfg.tilt_dead_zone then 0 else norm_error_y0
  let norm_error_x2 :=
    if pan_direction < 0 then norm_error_x1 + cfg.anticipation
    else norm_error_x1 - cfg.anticipation
  let gain_pan := cfg.max_pan_speed / (7/10)
  let gain_tilt := cfg.max_tilt_speed / (7/10)
  let pan_speed :=
    pyTrunc (max (-cfg.max_pan_speed) (min cfg.max_pan_speed (norm_error_x2 * gain_pan)))
  let tilt_speed :=
    pyTrunc (max (-cfg.max_tilt_speed) (min cfg.max_tilt_speed (norm_error_y1 * gain_tilt)))
  (pan_speed, tilt_speed, pan_direction)

end RacerTracker

/-! ## The run-loop state machine (`RacerTracker.run`) -/

/-- The four tracker states. -/
inductive TrackerState where
  | IDLE
  | WAITING
  | TRACKING
  | FINISHED
deriving DecidableEq

/-- One WAITING-state iteration of `RacerTracker.run` (the
`if self.state == STATE_WAITING` branch): evaluate the start trigger; on
fire, transition to TRACKING.  State outside WAITING is untouched by this
branch. -/
def waitingStep (c : CourseMap) (fs : ℚ × ℚ) (st : TrackerState × ℕ)
    (dets : List Det) : TrackerState × ℕ :=
  match st.1 with
  | TrackerState.WAITING =>
    let r := RacerTracker.check_start_trigger c dets fs st.2
    (if r.1 then TrackerState.TRACKING else TrackerState.WAITING, r.2)
  | s => (s, st.2)

/-- Fold of `waitingStep` over a sequence of per-frame detection lists. -/
def runWaiting (c : CourseMap) (fs : ℚ × ℚ) (st : TrackerState × ℕ)
    (frames : List (List Det)) : TrackerState × ℕ :=
  frames.foldl (waitingStep c fs) st

/-! ## Startup (`main`) -/

/-- The configuration validation performed by `main` before the loop: the
only startup exit tied to the configuration is the file-existence check
(`if not os.path.exists(args.config): sys.exit(1)`).  The gate list itself
is never inspected at startup; `CourseMap.__init__` accepts any list,
including an empty one.  Returns `true` when the process exits before the
loop starts. -/
def startupConfigExit (config_file_exists : Bool) : Bool :=
  !config_file_exists

/-- The look-ahead zoom formula as the spec states it: with
`j = min(i + gates_ahead, last_index)`, return `gate[i].zoom` when
`j ≤ i`, else the average zoom over `[i..j]` divided by `zoom_margin`,
floored at 1 — with no condition on the pan span.  Kept separate from
`CourseMap.compute_zoom_for_span` (the code) for comparison. -/
def specZoomForSpan (c : CourseMap) (i : ℕ) : ℤ :=
  let n := c.gates.length
  let j := min (i + c.gates_ahead) (n - 1)
  if j ≤ i then (c.gAt i).zoom
  else
    let seg := (c.gates.drop i).take (j - i + 1)
    let avg_zoom : ℚ := (seg.map (fun g => (g.zoom : ℚ))).sum / ((j - i + 1 : ℕ) : ℚ)
    max 1 (pyTrunc (avg_zoom / c.zoom_margin))

/-! ## Concrete inputs used by the counterexamples and witnesses -/

/-- Three gates sharing one pan angle, all zoom 3000, `gates_ahead = 2`,
`zoom_margin = 1.2` — the span `[0..2]` is nonempty but has zero pan
width. -/
def c4cx : CourseMap :=
  ⟨[⟨0, 0, 0, 3000, none⟩, ⟨1, 0, 0, 3000, none⟩, ⟨2, 0, 0, 3000, none⟩], 2, 6/5⟩

/-- Three gates with distinct pans, all zoom 3000, `gates_ahead = 2`,
`zoom_margin = 1.2` (the spec's worked example, with a nonzero pan span). -/
def c4ex : CourseMap :=
  ⟨[⟨0, 0, 0, 3000, none⟩, ⟨1, -5, 0, 3000, none⟩, ⟨2, -10, 0, 3000, none⟩], 2, 6/5⟩

/-- A one-gate course whose gate zoom is 0. -/
def c5cx : CourseMap := ⟨[⟨0, 0, 0, 0, none⟩], 2, 6/5⟩

/-- A one-gate course with gate zoom 1. -/
def c5w : CourseMap := ⟨[⟨0, 0, 0, 1, none⟩], 2, 6/5⟩

/-- Two gates with zooms 0 and 7: interpolated zoom at progress 1/4 is
7/4 = 1.75. -/
def c9a : Gate := ⟨0, 0, 0, 0, none⟩

/-- Second gate of the C9 counterexample. -/
def c9b : Gate := ⟨1, 0, 0, 7, none⟩

/-- The single detection of the spec's rejection example: centroid
(950, 550). -/
def c7det : Det := ⟨(900, 500, 1000, 600), 9/10⟩

/-- The prior bbox of the spec's rejection example: centroid (150, 150). -/
def c7pb : BBox := (100, 100, 200, 200)

/-- A detection arbitrarily far from the prior bbox. -/
def c10det : Det := ⟨(10000, 10000, 10010, 10010), 1/2⟩

/-- The prior bbox of the C10 witness: centroid (5, 5). -/
def c10pb : BBox := (0, 0, 10, 10)

/-- The start-gate trigger zone used by the trigger witnesses: enabled,
with the default `bbox_pct` and default (exit) direction. -/
def zW : TriggerZone := ⟨true, none, none⟩

/-- A one-gate course whose gate carries `zW`. -/
def cW : CourseMap := ⟨[⟨0, 0, 0, 1000, some zW⟩], 2, 6/5⟩

/-- A detection whose centroid (960, 540) lies inside the default trigger
zone of a 1920×1080 frame ([576, 1344] × [216, 864]). -/
def dInW : Det := ⟨(900, 500, 1020, 580), 1/2⟩

/-- A detection whose centroid (50, 50) lies outside that zone. -/
def dOutW : Det := ⟨(0, 0, 100, 100), 1/2⟩

/-- A two-gate course panning from 10 down to 5. -/
def c3course : CourseMap :=
  ⟨[⟨0, 10, 0, 3000, none⟩, ⟨1, 5, 0, 3000, none⟩], 2, 6/5⟩

/-- One TRACKING frame: a racer bbox at the left frame edge of a 1920×1080
frame (inside the leading-edge band, so the gate advances). -/
def c3inputs : List (BBox × (ℚ × ℚ)) := [((0, 0, 100, 100), (1080, 1920))]

/-- A two-gate course panning from 10 down to 5 (pan direction −5 < 0). -/
def c2course : CourseMap :=
  ⟨[⟨0, 10, 0, 3000, none⟩, ⟨1, 5, 0, 3000, none⟩], 2, 6/5⟩

/-- A racer bbox whose centroid (1152, 540) sits exactly at the desired
frame point for `c2course` on a 1920×1080 frame (desired x =
1920·(1−0.4) = 1152, desired y = 540): both raw normalized errors are 0. -/
def c2bbox : BBox := (1052, 440, 1252, 640)

/-! ## Basic lemmas -/

/-- Truncation of an integer-valued rational is the integer itself. -/
lemma pyTrunc_intCast (n : ℤ) : pyTrunc (n : ℚ) = n := by
  unfold pyTrunc
  split
  · exact Int.floor_intCast n
  · exact Int.ceil_intCast n

/-- Truncation of zero. -/
lemma pyTrunc_zero : pyTrunc 0 = 0 := by
  norm_num [pyTrunc]

/-- In-bounds unchecked indexing lands in the gate list. -/
lemma CourseMap.gAt_mem (c : CourseMap) (i : ℕ) (hi : i < c.num_gates) :
    c.gAt i ∈ c.gates := by
  unfold CourseMap.gAt
  have h : c.gates.get? i = some (c.gates.get ⟨i, hi⟩) := List.get?_eq_get hi
  rw [List.getD_eq_getElem?_getD, ← List.get?_eq_getElem?, h]
  exact List.get_mem c.gates i hi

/-! ## Claim C4: `compute_zoom_for_span` vs the spec's span formula -/

/-- C4 counterexample: on a look-ahead span with zero pan width the code
skips the `zoom_margin` division (`if pan_span > 0` guard) and returns the
raw gate zoom 3000, while the claim's formula gives 2500. -/
theorem zoom_for_span_ignores_margin_on_zero_pan_span :
    c4cx.compute_zoom_for_span 0 = 3000 ∧ specZoomForSpan c4cx 0 = 2500 ∧
    0 < min (0 + c4cx.gates_ahead) (c4cx.num_gates - 1) := by
  refine ⟨?_, ?_, ?_⟩
  · norm_num [c4cx, CourseMap.compute_zoom_for_span, CourseMap.gAt, pyTrunc]
  · norm_num [c4cx, specZoomForSpan, CourseMap.gAt, pyTrunc]
  · norm_num [c4cx, CourseMap.num_gates]

/-- C4 (amended): with `j = min(i + gates_ahead, last_index)`,
`compute_zoom_for_span i` returns `gate[i].zoom` unchanged when `j ≤ i`;
when `j > i` it matches the spec's average-over-span formula only if the
pan span over `[i..j]` is nonzero, and otherwise returns
`max(1, trunc(gate[i].zoom))`. -/
theorem zoom_for_span_characterization (c : CourseMap) (i : ℕ)
    (hi : i < c.num_gates) :
    (min (i + c.gates_ahead) (c.num_gates - 1) ≤ i →
      c.compute_zoom_for_span i = (c.gAt i).zoom) ∧
    (i < min (i + c.gates_ahead) (c.num_gates - 1) →
      (c.gAt (min (i + c.gates_ahead) (c.num_gates - 1))).pan ≠ (c.gAt i).pan →
      c.compute_zoom_for_span i = specZoomForSpan c i) ∧
    (i < min (i + c.gates_ahead) (c.num_gates - 1) →
      (c.gAt (min (i + c.gates_ahead) (c.num_gates - 1))).pan = (c.gAt i).pan →
      c.compute_zoom_for_span i = max 1 (pyTrunc ((c.gAt i).zoom : ℚ))) := by
  refine ⟨?_, ?_, ?_⟩
  · intro h
    simp only [CourseMap.compute_zoom_for_span, CourseMap.num_gates] at *
    rw [if_pos h]
  · intro hlt hne
    simp only [CourseMap.compute_zoom_for_span, specZoomForSpan,
      CourseMap.num_gates] at *
    rw [if_neg (not_le.mpr hlt), if_neg (not_le.mpr hlt),
      if_pos (abs_pos.mpr (sub_ne_zero.mpr hne))]
  · intro hlt heq
    simp only [CourseMap.compute_zoom_for_span, CourseMap.num_gates] at *
    rw [if_neg (not_le.mpr hlt), if_neg]
    rw [heq]
    simp

/-- C4 witness: on the distinct-pan example course the code and the spec's
formula agree and give 2500. -/
theorem zoom_for_span_characterization_witness :
    c4ex.compute_zoom_for_span 0 = 2500 := by
  have h := (zoom_for_span_characterization c4ex 0
    (by norm_num [c4ex, CourseMap.num_gates])).2.1
    (by norm_num [c4ex, CourseMap.num_gates])
    (by norm_num [c4ex, CourseMap.gAt, CourseMap.num_gates])
  rw [h]
  norm_num [c4ex, specZoomForSpan, CourseMap.gAt, pyTrunc]

/-! ## Claim C5: lower bound of `compute_zoom_for_span` -/

/-- C5 counterexample: on the early-return path (`end_index ≤ i`) the raw
gate zoom is returned without the `max(1, ...)` floor, so a gate zoom of 0
yields a result below 1. -/
theorem zoom_for_span_returns_zero_on_zero_zoom_gate :
    c5cx.compute_zoom_for_span 0 = 0 ∧ (0 : ℤ) < 1 := by
  constructor
  · norm_num [c5cx, CourseMap.compute_zoom_for_span, CourseMap.gAt]
  · norm_num

/-- C5 (amended): when every gate zoom of the course is at least 1,
`compute_zoom_for_span` never returns a value below 1 at any valid
index. -/
theorem zoom_for_span_ge_one (c : CourseMap) (i : ℕ) (hi : i < c.num_gates)
    (hz : ∀ g ∈ c.gates, 1 ≤ g.zoom) :
    1 ≤ c.compute_zoom_for_span i := by
  have hmem := c.gAt_mem i hi
  simp only [CourseMap.compute_zoom_for_span]
  split
  · exact hz _ hmem
  · exact le_max_left 1 _

/-- C5 witness: the lower bound evaluated on a concrete course. -/
theorem zoom_for_span_ge_one_witness : 1 ≤ c5w.compute_zoom_for_span 0 := by
  refine zoom_for_span_ge_one c5w 0 (by norm_num [c5w, CourseMap.num_gates]) ?_
  intro g hg
  simp only [c5w, List.mem_singleton] at hg
  subst hg
  norm_num

/-! ## Claim C9: `interpolate_ptz` -/

/-- C9 counterexample: `int(...)` truncates toward zero, it does not round
to the nearest integer — at interpolated zoom 7/4 the code yields 1 while
rounding to nearest yields 2. -/
theorem interpolate_zoom_truncates_not_rounds :
    (CourseMap.interpolate_ptz c9a c9b (1/4)).zoom = 1 ∧
    round ((c9a.zoom : ℚ) + ((c9b.zoom : ℚ) - (c9a.zoom : ℚ)) * max 0 (min 1 (1/4 : ℚ))) = 2 ∧
    (1 : ℤ) ≠ 2 := by
  refine ⟨?_, ?_, by norm_num⟩
  · norm_num [c9a, c9b, CourseMap.interpolate_ptz, pyTrunc]
  · norm_num [c9a, c9b, round_eq]

/-- C9 (amended): `interpolate_ptz` clamps progress to [0,1] — any
progress ≤ 0 yields gate `a`'s exact pan/tilt/zoom and any progress ≥ 1
yields gate `b`'s — and inside [0,1] it interpolates pan and tilt linearly
and truncates (not rounds) the interpolated zoom toward zero. -/
theorem interpolate_clamps_and_truncates (a b : Gate) (p : ℚ) :
    (p ≤ 0 → CourseMap.interpolate_ptz a b p = ⟨a.pan, a.tilt, a.zoom⟩) ∧
    (1 ≤ p → CourseMap.interpolate_ptz a b p = ⟨b.pan, b.tilt, b.zoom⟩) ∧
    (0 ≤ p → p ≤ 1 →
      (CourseMap.interpolate_ptz a b p).pan = (1 - p) * a.pan + p * b.pan ∧
      (CourseMap.interpolate_ptz a b p).tilt = (1 - p) * a.tilt + p * b.tilt ∧
      (CourseMap.interpolate_ptz a b p).zoom
        = pyTrunc ((1 - p) * (a.zoom : ℚ) + p * (b.zoom : ℚ))) := by
  refine ⟨?_, ?_, ?_⟩
  · intro hp
    have ht : max 0 (min 1 p) = 0 :=
      max_eq_left ((min_le_right 1 p).trans hp)
    simp only [CourseMap.interpolate_ptz, ht, mul_zero, add_zero]
    rw [pyTrunc_intCast]
  · intro hp
    have ht : max 0 (min 1 p) = 1 := by
      rw [min_eq_left hp]
      exact max_eq_right zero_le_one
    simp only [CourseMap.interpolate_ptz, ht, mul_one, PTZ.mk.injEq]
    refine ⟨by ring, by ring, ?_⟩
    have harg : (a.zoom : ℚ) + ((b.zoom : ℚ) - (a.zoom : ℚ)) = (b.zoom : ℚ) := by
      ring
    rw [harg, pyTrunc_intCast]
  · intro hp0 hp1
    have ht : max 0 (min 1 p) = p := by
      rw [min_eq_right hp1]
      exact max_eq_right hp0
    simp only [CourseMap.interpolate_ptz, ht]
    refine ⟨by ring, by ring, ?_⟩
    have harg : (a.zoom : ℚ) + ((b.zoom : ℚ) - (a.zoom : ℚ)) * p
        = (1 - p) * (a.zoom : ℚ) + p * (b.zoom : ℚ) := by ring
    rw [harg]

/-- The selection-loop invariant: starting from an accumulator whose
distance entry is the distance of its detection, `nearestFold` returns a
pair whose detection is the accumulator's or one from the list, whose
distance entry is that detection's distance, and whose distance is a lower
bound of the accumulator's and of every list element's distance. -/
lemma nearestFold_spec (pc : ℚ × ℚ) (l : List Det) :
    ∀ acc : Det × ℚ, acc.2 = distSq (detCentroid acc.1) pc →
      ((YOLODetector.nearestFold pc acc l).1 = acc.1 ∨
        (YOLODetector.nearestFold pc acc l).1 ∈ l) ∧
      (YOLODetector.nearestFold pc acc l).2
        = distSq (detCentroid (YOLODetector.nearestFold pc acc l).1) pc ∧
      (YOLODetector.nearestFold pc acc l).2 ≤ acc.2 ∧
      ∀ d ∈ l, (YOLODetector.nearestFold pc acc l).2
        ≤ distSq (detCentroid d) pc := by
  induction l with
  | nil =>
    intro acc hacc
    simp [YOLODetector.nearestFold, hacc]
  | cons d rest ih =>
    intro acc hacc
    simp only [YOLODetector.nearestFold]
    by_cases hlt : distSq (detCentroid d) pc < acc.2
    · rw [if_pos hlt]
      obtain ⟨hmem, heq, hle, hall⟩ := ih (d, distSq (detCentroid d) pc) rfl
      refine ⟨?_, heq, hle.trans hlt.le, ?_⟩
      · rcases hmem with h1 | h1
        · exact Or.inr (h1 ▸ List.mem_cons_self d rest)
        · exact Or.inr (List.mem_cons_of_mem d h1)
      · intro d' hd'
        rcases List.mem_cons.mp hd' with h1 | h1
        · exact h1 ▸ hle
        · exact hall d' h1
    · rw [if_neg hlt]
      obtain ⟨hmem, heq, hle, hall⟩ := ih acc hacc
      refine ⟨?_, heq, hle, ?_⟩
      · rcases hmem with h1 | h1
        · exact Or.inl h1
        · exact Or.inr (List.mem_cons_of_mem d h1)
      · intro d' hd'
        rcases List.mem_cons.mp hd' with h1 | h1
        · exact h1 ▸ hle.trans (not_lt.mp hlt)
        · exact hall d' h1

/-! ## Claim C7: re-identification rejection with a frame size -/

/-- C7: with a prior bbox and a frame size, whenever every detection's
centroid lies at squared distance exceeding `(0.3 · diag)² = 0.09 · (w²+h²)`
from the previous centroid (equivalently: the nearest candidate's distance
exceeds 0.3 × frame diagonal), `select_racer` returns none. -/
theorem select_racer_rejects_far (dets : List Det) (pb : BBox) (h w : ℚ)
    (hne : dets ≠ [])
    (hfar : ∀ d ∈ dets,
      (w ^ 2 + h ^ 2) * (9 / 100) < distSq (detCentroid d) (bboxCentroid pb)) :
    YOLODetector.select_racer dets (some pb) (some (h, w)) = none := by
  match dets, hne with
  | d :: rest, _ =>
    obtain ⟨hmem, heq, -, -⟩ := nearestFold_spec (bboxCentroid pb) rest
      (d, distSq (detCentroid d) (bboxCentroid pb)) rfl
    have hr1 : (YOLODetector.nearestFold (bboxCentroid pb)
        (d, distSq (detCentroid d) (bboxCentroid pb)) rest).1 ∈ d :: rest := by
      rcases hmem with h1 | h1
      · exact h1 ▸ List.mem_cons_self d rest
      · exact List.mem_cons_of_mem d h1
    have hbig := hfar _ hr1
    rw [← heq] at hbig
    simp only [YOLODetector.select_racer, YOLODetector.selectNearest]
    rw [if_pos hbig]

/-- C7 witness (the spec's worked example): prev bbox (100,100,200,200),
frame 1920×1080, single detection centroid (950,550) — squared distance
800000 exceeds the squared threshold 436752, so the selector returns
none. -/
theorem select_racer_rejects_far_witness :
    YOLODetector.select_racer [c7det] (some c7pb) (some (1080, 1920)) = none := by
  refine select_racer_rejects_far [c7det] c7pb 1080 1920 (by simp) ?_
  intro d hd
  simp only [List.mem_singleton] at hd
  subst hd
  norm_num [c7det, c7pb, distSq, detCentroid, bboxCentroid]

/-! ## Claim C10: no rejection without a frame size -/

/-- C10: with a prior bbox but `frame_shape = None`, the 0.3-diagonal
rejection is skipped entirely — `select_racer` returns the detection whose
centroid is nearest to the previous centroid, however large that distance
is (no distance hypothesis appears). -/
theorem select_racer_no_reject_without_frame (dets : List Det) (pb : BBox)
    (hne : dets ≠ []) :
    ∃ d, YOLODetector.select_racer dets (some pb) none = some d ∧ d ∈ dets ∧
      ∀ d' ∈ dets, distSq (detCentroid d) (bboxCentroid pb)
        ≤ distSq (detCentroid d') (bboxCentroid pb) := by
  match dets, hne with
  | d :: rest, _ =>
    obtain ⟨hmem, heq, hle, hall⟩ := nearestFold_spec (bboxCentroid pb) rest
      (d, distSq (detCentroid d) (bboxCentroid pb)) rfl
    refine ⟨(YOLODetector.nearestFold (bboxCentroid pb)
      (d, distSq (detCentroid d) (bboxCentroid pb)) rest).1, ?_, ?_, ?_⟩
    · simp only [YOLODetector.select_racer, YOLODetector.selectNearest]
    · rcases hmem with h1 | h1
      · exact h1 ▸ List.mem_cons_self d rest
      · exact List.mem_cons_of_mem d h1
    · intro d' hd'
      rcases List.mem_cons.mp hd' with h1 | h1
      · rw [← heq, h1]
        exact hle
      · rw [← heq]
        exact hall d' h1

/-- C10 witness: a single detection thousands of pixels away is still
returned when no frame size is passed. -/
theorem select_racer_no_reject_witness :
    ∃ d, YOLODetector.select_racer [c10det] (some c10pb) none = some d ∧
      d ∈ [c10det] ∧
      ∀ d' ∈ [c10det], distSq (detCentroid d) (bboxCentroid c10pb)
        ≤ distSq (detCentroid d') (bboxCentroid c10pb) :=
  select_racer_no_reject_without_frame [c10det] c10pb (by simp)

/-- C9 witness: clamping evaluated concretely — progress −1 is clamped to
gate `a`'s exact values, progress 2 to gate `b`'s, and progress 1/4 lands
at the truncated linear interpolation. -/
theorem interpolate_clamps_witness :
    CourseMap.interpolate_ptz c9a c9b (-1) = ⟨c9a.pan, c9a.tilt, c9a.zoom⟩ ∧
    CourseMap.interpolate_ptz c9a c9b 2 = ⟨c9b.pan, c9b.tilt, c9b.zoom⟩ ∧
    (CourseMap.interpolate_ptz c9a c9b (1/4)).zoom
      = pyTrunc ((1 - 1/4) * (c9a.zoom : ℚ) + (1/4) * (c9b.zoom : ℚ)) := by
  refine ⟨(interpolate_clamps_and_truncates c9a c9b (-1)).1 (by norm_num),
    (interpolate_clamps_and_truncates c9a c9b 2).2.1 (by norm_num),
    ((interpolate_clamps_and_truncates c9a c9b (1/4)).2.2 (by norm_num)
      (by norm_num)).2.2⟩

/-! ## Claims C1 and C6: the start-trigger debounce -/

/-- Characterization of `check_start_trigger` on a course whose start gate
carries an enabled, exit-direction trigger zone: increment in zone; fire
and reset when the counter reached 3 and a detection remains in frame;
reset without firing on total disappearance; otherwise unchanged. -/
lemma check_start_trigger_exit (c : CourseMap) (sg : Gate) (z : TriggerZone)
    (dets : List Det) (fs : ℚ × ℚ) (fz : ℕ)
    (hsg : c.get_start_gate = some sg) (hz : sg.trigger_zone = some z)
    (hen : z.enabled = true) (hdir : z.direction.getD "exit" = "exit") :
    RacerTracker.check_start_trigger c dets fs fz =
      if dets.any (RacerTracker.detInZone z fs) then (false, fz + 1)
      else if 3 ≤ fz ∧ dets.isEmpty = false then (true, 0)
      else if dets.isEmpty then (false, 0)
      else (false, fz) := by
  simp only [RacerTracker.check_start_trigger, hsg, hz, hen, hdir]
  simp

/-- C1: from WAITING with counter 0 on an exit-direction trigger zone,
three consecutive frames with a detection in the zone followed by one
frame with detections but none in the zone fire the WAITING → TRACKING
transition and reset the counter to 0; two in-zone frames followed by a
frame with no detections at all leave the machine in WAITING with the
counter reset to 0. -/
theorem start_trigger_exit_fires (c : CourseMap) (sg : Gate) (z : TriggerZone)
    (fs : ℚ × ℚ) (d1 d2 d3 d4 e1 e2 : List Det)
    (hsg : c.get_start_gate = some sg) (hz : sg.trigger_zone = some z)
    (hen : z.enabled = true) (hdir : z.direction.getD "exit" = "exit")
    (h1 : d1.any (RacerTracker.detInZone z fs) = true)
    (h2 : d2.any (RacerTracker.detInZone z fs) = true)
    (h3 : d3.any (RacerTracker.detInZone z fs) = true)
    (h4 : d4.any (RacerTracker.detInZone z fs) = false)
    (h4ne : d4.isEmpty = false)
    (he1 : e1.any (RacerTracker.detInZone z fs) = true)
    (he2 : e2.any (RacerTracker.detInZone z fs) = true) :
    runWaiting c fs (TrackerState.WAITING, 0) [d1, d2, d3, d4]
      = (TrackerState.TRACKING, 0) ∧
    runWaiting c fs (TrackerState.WAITING, 0) [e1, e2, []]
      = (TrackerState.WAITING, 0) := by
  have sIn : ∀ (dets : List Det) (fz : ℕ),
      dets.any (RacerTracker.detInZone z fs) = true →
      waitingStep c fs (TrackerState.WAITING, fz) dets
        = (TrackerState.WAITING, fz + 1) := by
    intro dets fz hIn
    simp [waitingStep, check_start_trigger_exit c sg z dets fs fz hsg hz hen hdir, hIn]
  have sFire : waitingStep c fs (TrackerState.WAITING, 3) d4
      = (TrackerState.TRACKING, 0) := by
    simp [waitingStep, check_start_trigger_exit c sg z d4 fs 3 hsg hz hen hdir,
      h4, h4ne]
  have sGone : waitingStep c fs (TrackerState.WAITING, 2) ([] : List Det)
      = (TrackerState.WAITING, 0) := by
    simp [waitingStep, check_start_trigger_exit c sg z [] fs 2 hsg hz hen hdir]
  constructor
  · simp only [runWaiting, List.foldl_cons, List.foldl_nil,
      sIn d1 0 h1, sIn d2 1 h2, sIn d3 2 h3]
    exact sFire
  · simp only [runWaiting, List.foldl_cons, List.foldl_nil,
      sIn e1 0 he1, sIn e2 1 he2]
    exact sGone

/-- C1 witness: the two scenarios run on a concrete one-gate course with
the default trigger zone on a 1920×1080 frame. -/
theorem start_trigger_exit_fires_witness :
    runWaiting cW (1080, 1920) (TrackerState.WAITING, 0)
      [[dInW], [dInW], [dInW], [dOutW]] = (TrackerState.TRACKING, 0) ∧
    runWaiting cW (1080, 1920) (TrackerState.WAITING, 0)
      [[dInW], [dInW], []] = (TrackerState.WAITING, 0) := by
  have hin : [dInW].any (RacerTracker.detInZone zW (1080, 1920)) = true := by
    norm_num [RacerTracker.detInZone, detCentroid, bboxCentroid, zW, dInW]
  have hout : [dOutW].any (RacerTracker.detInZone zW (1080, 1920)) = false := by
    norm_num [RacerTracker.detInZone, detCentroid, bboxCentroid, zW, dOutW]
  exact start_trigger_exit_fires cW ⟨0, 0, 0, 1000, some zW⟩ zW (1080, 1920)
    [dInW] [dInW] [dInW] [dOutW] [dInW] [dInW]
    rfl rfl rfl rfl hin hin hin hout rfl hin hin

/-- C6 counterexample: with an exit-direction zone, counter 2 and a frame
whose only detection has left the zone but remains in frame, the counter
stays at 2 — the subject left the trigger zone yet
`frames_in_zone` is not reset to 0. -/
theorem frames_in_zone_not_reset_on_zone_exit :
    RacerTracker.check_start_trigger cW [dOutW] (1080, 1920) 2 = (false, 2) ∧
    [dOutW].any (RacerTracker.detInZone zW (1080, 1920)) = false ∧
    [dOutW] ≠ ([] : List Det) := by
  have hout : [dOutW].any (RacerTracker.detInZone zW (1080, 1920)) = false := by
    norm_num [RacerTracker.detInZone, detCentroid, bboxCentroid, zW, dOutW]
  refine ⟨?_, hout, by simp⟩
  rw [check_start_trigger_exit cW ⟨0, 0, 0, 1000, some zW⟩ zW [dOutW]
    (1080, 1920) 2 rfl rfl rfl rfl, hout]
  norm_num

/-- C6 (amended): with an exit-direction zone and no detection currently
in the zone, the counter resets to 0 exactly on total disappearance or on
firing (counter ≥ 3 with a detection still in frame); a zone exit with the
subject still in frame and counter below 3 leaves the counter
unchanged. -/
theorem frames_in_zone_reset_characterization (c : CourseMap) (sg : Gate)
    (z : TriggerZone) (dets : List Det) (fs : ℚ × ℚ) (fz : ℕ)
    (hsg : c.get_start_gate = some sg) (hz : sg.trigger_zone = some z)
    (hen : z.enabled = true) (hdir : z.direction.getD "exit" = "exit")
    (hout : dets.any (RacerTracker.detInZone z fs) = false) :
    (dets.isEmpty = true →
      RacerTracker.check_start_trigger c dets fs fz = (false, 0)) ∧
    (dets.isEmpty = false → 3 ≤ fz →
      RacerTracker.check_start_trigger c dets fs fz = (true, 0)) ∧
    (dets.isEmpty = false → fz < 3 →
      RacerTracker.check_start_trigger c dets fs fz = (false, fz)) := by
  rw [check_start_trigger_exit c sg z dets fs fz hsg hz hen hdir, hout]
  refine ⟨?_, ?_, ?_⟩
  · intro he
    simp [he]
  · intro he h3
    simp [he, h3]
  · intro he h3
    simp [he, Nat.not_le.mpr h3]

/-- C6 witness: the three reset behaviors evaluated on the concrete
course `cW` — disappearance resets at counter 5, a zone exit at counter 3
fires and resets, and a zone exit at counter 2 leaves the counter. -/
theorem frames_in_zone_reset_witness :
    RacerTracker.check_start_trigger cW ([] : List Det) (1080, 1920) 5
      = (false, 0) ∧
    RacerTracker.check_start_trigger cW [dOutW] (1080, 1920) 3 = (true, 0) := by
  have hout : [dOutW].any (RacerTracker.detInZone zW (1080, 1920)) = false := by
    norm_num [RacerTracker.detInZone, detCentroid, bboxCentroid, zW, dOutW]
  refine ⟨?_, ?_⟩
  · exact (frames_in_zone_reset_characterization cW ⟨0, 0, 0, 1000, some zW⟩
      zW [] (1080, 1920) 5 rfl rfl rfl rfl (by simp)).1 rfl
  · exact (frames_in_zone_reset_characterization cW ⟨0, 0, 0, 1000, some zW⟩
      zW [dOutW] (1080, 1920) 3 rfl rfl rfl rfl hout).2.1 rfl (by norm_num)

/-! ## Claim C8: zero gates at startup -/

/-- C8 counterexample: with the configuration file present but containing
zero gates, the startup validation does not exit (`startupConfigExit true
= false` — `main` only checks file existence), the empty gate list is
accepted by the course map, and the loop's start trigger simply never
fires (there is no start gate), so the tracker idles in WAITING instead of
exiting. -/
theorem zero_gates_reaches_loop :
    startupConfigExit true = false ∧
    (CourseMap.mk [] 2 (6/5)).num_gates = 0 ∧
    RacerTracker.check_start_trigger (CourseMap.mk [] 2 (6/5)) [dOutW]
      (1080, 1920) 0 = (false, 0) := by
  refine ⟨rfl, rfl, ?_⟩
  simp [RacerTracker.check_start_trigger, CourseMap.get_start_gate]

/-- C8 (amended): only a missing configuration file is fatal at startup;
a zero-gate course is accepted (its start gate is `none`), the start
trigger returns false on every frame without touching the counter, and the
WAITING state is never left by the automatic trigger. -/
theorem zero_gates_not_fatal (ga : ℕ) (zm : ℚ) (dets : List Det)
    (fs : ℚ × ℚ) (fz : ℕ) :
    startupConfigExit true = false ∧
    (CourseMap.mk [] ga zm).get_start_gate = none ∧
    RacerTracker.check_start_trigger (CourseMap.mk [] ga zm) dets fs fz
      = (false, fz) ∧
    waitingStep (CourseMap.mk [] ga zm) fs (TrackerState.WAITING, fz) dets
      = (TrackerState.WAITING, fz) := by
  have hsg : (CourseMap.mk [] ga zm).get_start_gate = none := by
    simp [CourseMap.get_start_gate]
  have hck : RacerTracker.check_start_trigger (CourseMap.mk [] ga zm) dets fs fz
      = (false, fz) := by
    unfold RacerTracker.check_start_trigger
    rw [hsg]
  refine ⟨rfl, hsg, hck, ?_⟩
  simp [waitingStep, hck]

/-! ## Claim C3: gate-index invariant over a TRACKING session -/

/-- A scan always starts with its initial value. -/
lemma scanl_head (f : ℕ → BBox × (ℚ × ℚ) → ℕ) (b : ℕ)
    (l : List (BBox × (ℚ × ℚ))) : (List.scanl f b l).head? = some b := by
  cases l with
  | nil => simp [List.scanl_nil]
  | cons a l => simp [List.scanl_cons]

/-- The gate-advancement step cannot decrease the index and keeps it at or
below the last index. -/
lemma gateAdvanceStep_bounds (cfg : TrackConfig) (c : CourseMap)
    (inp : BBox × (ℚ × ℚ)) (i : ℕ) (hi : i ≤ c.num_gates - 1) :
    i ≤ RacerTracker.gateAdvanceStep cfg c inp i ∧
    RacerTracker.gateAdvanceStep cfg c inp i ≤ c.num_gates - 1 := by
  unfold RacerTracker.gateAdvanceStep
  split
  · exact ⟨Nat.le_min.mpr ⟨Nat.le_succ i, hi⟩, Nat.min_le_right _ _⟩
  · exact ⟨le_refl i, hi⟩

/-- Scan invariant for the session trace: from any start index at or below
the last index, the trace of gate indices is non-decreasing and stays at or
below the last index. -/
lemma sessionTrace_aux (cfg : TrackConfig) (c : CourseMap)
    (l : List (BBox × (ℚ × ℚ))) :
    ∀ i, i ≤ c.num_gates - 1 →
      List.Chain' (· ≤ ·)
        (List.scanl (fun j inp => RacerTracker.gateAdvanceStep cfg c inp j) i l) ∧
      ∀ x ∈ List.scanl (fun j inp => RacerTracker.gateAdvanceStep cfg c inp j) i l,
        x ≤ c.num_gates - 1 := by
  induction l with
  | nil =>
    intro i hi
    constructor
    · simp [List.scanl_nil]
    · intro x hx
      simp only [List.scanl_nil, List.mem_singleton] at hx
      exact hx ▸ hi
  | cons a l ih =>
    intro i hi
    obtain ⟨hstep, hstep'⟩ := gateAdvanceStep_bounds cfg c a i hi
    obtain ⟨ih1, ih2⟩ := ih (RacerTracker.gateAdvanceStep cfg c a i) hstep'
    rw [List.scanl_cons, List.singleton_append]
    constructor
    · rw [List.chain'_cons']
      refine ⟨?_, ih1⟩
      intro y hy
      rw [scanl_head] at hy
      simp only [Option.mem_def, Option.some.injEq] at hy
      exact hy ▸ hstep
    · intro x hx
      rcases List.mem_cons.mp hx with h1 | h1
      · exact h1 ▸ hi
      · exact ih2 x h1
  
/-- The start index of a nonempty course is at or below the last index. -/
lemma get_start_index_le (c : CourseMap) (hn : 1 ≤ c.num_gates) :
    c.get_start_index ≤ c.num_gates - 1 := by
  cases h : c.gates.findIdx? CourseMap.gateHasEnabledZone with
  | none => simp [CourseMap.get_start_index, h]
  | some i =>
    have hlt := (List.findIdx?_eq_some_iff_findIdx_eq.mp h).1
    have hng : c.num_gates = c.gates.length := rfl
    simp only [CourseMap.get_start_index, h]
    omega

/-- C3: over any TRACKING session on a course with at least one gate, the
trace of `current_gate_index` (initialized by the TRACKING entry action to
the course's start index, updated once per frame with a selected racer) is
non-decreasing, bounded by `num_gates − 1`, starts at the start index, and
saturates: one step from the last index stays at the last index. -/
theorem gate_index_monotone_bounded (cfg : TrackConfig) (c : CourseMap)
    (hn : 1 ≤ c.num_gates) (inputs : List (BBox × (ℚ × ℚ))) :
    List.Chain' (· ≤ ·) (RacerTracker.sessionTrace cfg c inputs) ∧
    (∀ x ∈ RacerTracker.sessionTrace cfg c inputs, x ≤ c.num_gates - 1) ∧
    (RacerTracker.sessionTrace cfg c inputs).head? = some c.get_start_index ∧
    (∀ inp, RacerTracker.gateAdvanceStep cfg c inp (c.num_gates - 1)
      = c.num_gates - 1) := by
  obtain ⟨h1, h2⟩ := sessionTrace_aux cfg c inputs c.get_start_index
    (get_start_index_le c hn)
  refine ⟨h1, h2, ?_, ?_⟩
  · exact scanl_head _ _ _
  · intro inp
    unfold RacerTracker.gateAdvanceStep
    split
    · exact Nat.min_eq_right (Nat.le_succ _)
    · rfl

/-- C3 witness: the invariant evaluated on the concrete two-gate course
for a one-frame session. -/
theorem gate_index_monotone_bounded_witness :
    List.Chain' (· ≤ ·) (RacerTracker.sessionTrace defaultTrackConfig c3course c3inputs) ∧
    (∀ x ∈ RacerTracker.sessionTrace defaultTrackConfig c3course c3inputs,
      x ≤ c3course.num_gates - 1) ∧
    (RacerTracker.sessionTrace defaultTrackConfig c3course c3inputs).head?
      = some c3course.get_start_index ∧
    (∀ inp, RacerTracker.gateAdvanceStep defaultTrackConfig c3course inp
      (c3course.num_gates - 1) = c3course.num_gates - 1) :=
  gate_index_monotone_bounded defaultTrackConfig c3course
    (by norm_num [c3course, CourseMap.num_gates]) c3inputs

/-! ## Claim C2: dead zones vs commanded speed -/

/-- C2 counterexample: with the default configuration and a racer exactly
at the desired point (normalized pan error 0, inside the 0.05 dead zone),
the commanded pan speed is 20, not 0 — the anticipation bias is added
after the dead-zone snap. -/
theorem dead_zone_pan_speed_nonzero :
    (RacerTracker.compute_ptz_correction defaultTrackConfig c2course 0 c2bbox
      (1080, 1920)).1 = 20 ∧
    |RacerTracker.normErrorX defaultTrackConfig c2course 0 c2bbox (1080, 1920)|
      < defaultTrackConfig.pan_dead_zone ∧
    (20 : ℤ) ≠ 0 := by
  have hdirx : RacerTracker.panDirection c2course 0 = -5 := by
    simp only [RacerTracker.panDirection, CourseMap.get_gate_by_index,
      CourseMap.num_gates, c2course]
    norm_num
  have hnex : RacerTracker.normErrorX defaultTrackConfig c2course 0 c2bbox
      (1080, 1920) = 0 := by
    norm_num [RacerTracker.normErrorX, RacerTracker.desiredCx, hdirx,
      c2bbox, defaultTrackConfig]
  refine ⟨?_, ?_, by norm_num⟩
  · simp only [RacerTracker.compute_ptz_correction, hnex, hdirx]
    norm_num [defaultTrackConfig, pyTrunc]
  · rw [hnex]
    norm_num [defaultTrackConfig]

/-- C2 (amended): a normalized tilt error inside the tilt dead zone yields
a commanded tilt speed of exactly 0; a normalized pan error inside the pan
dead zone is snapped to 0, but the anticipation bias then makes the pan
speed the clamped, truncated pure-anticipation command — which is 0
exactly when the anticipation factor is 0.  (Nonnegative max speeds, as
configured.) -/
theorem dead_zone_speeds (cfg : TrackConfig) (c : CourseMap) (i : ℕ)
    (bbox : BBox) (fs : ℚ × ℚ)
    (hpt : 0 ≤ cfg.max_pan_speed) (htt : 0 ≤ cfg.max_tilt_speed) :
    (|RacerTracker.normErrorY bbox fs| < cfg.tilt_dead_zone →
      (RacerTracker.compute_ptz_correction cfg c i bbox fs).2.1 = 0) ∧
    (|RacerTracker.normErrorX cfg c i bbox fs| < cfg.pan_dead_zone →
      (RacerTracker.compute_ptz_correction cfg c i bbox fs).1
        = pyTrunc (max (-cfg.max_pan_speed) (min cfg.max_pan_speed
            ((if RacerTracker.panDirection c i < 0 then cfg.anticipation
              else -cfg.anticipation) * (cfg.max_pan_speed / (7/10)))))) ∧
    (|RacerTracker.normErrorX cfg c i bbox fs| < cfg.pan_dead_zone →
      cfg.anticipation = 0 →
      (RacerTracker.compute_ptz_correction cfg c i bbox fs).1 = 0) := by
  have hy : |RacerTracker.normErrorY bbox fs| < cfg.tilt_dead_zone →
      (RacerTracker.compute_ptz_correction cfg c i bbox fs).2.1 = 0 := by
    intro h
    simp only [RacerTracker.compute_ptz_correction, if_pos h, Prod.fst, Prod.snd]
    rw [zero_mul, min_eq_right htt, max_eq_right (neg_nonpos.mpr htt), pyTrunc_zero]
  have hx : |RacerTracker.normErrorX cfg c i bbox fs| < cfg.pan_dead_zone →
      (RacerTracker.compute_ptz_correction cfg c i bbox fs).1
        = pyTrunc (max (-cfg.max_pan_speed) (min cfg.max_pan_speed
            ((if RacerTracker.panDirection c i < 0 then cfg.anticipation
              else -cfg.anticipation) * (cfg.max_pan_speed / (7/10))))) := by
    intro h
    simp only [RacerTracker.compute_ptz_correction, if_pos h, Prod.fst, Prod.snd]
    by_cases hd : RacerTracker.panDirection c i < 0
    · rw [if_pos hd, if_pos hd, zero_add]
    · rw [if_neg hd, if_neg hd, zero_sub]
  refine ⟨hy, hx, ?_⟩
  intro h ha
  rw [hx h, ha]
  simp only [neg_zero, ite_self]
  rw [zero_mul, min_eq_right hpt, max_eq_right (neg_nonpos.mpr hpt), pyTrunc_zero]

/-- C2 witness: the tilt axis of the theorem evaluated on the concrete
centered bbox (normalized tilt error 0, inside the 0.08 dead zone) — the
commanded tilt speed is 0; and with a zero anticipation factor the pan
speed is also 0. -/
theorem dead_zone_speeds_witness :
    (RacerTracker.compute_ptz_correction defaultTrackConfig c2course 0 c2bbox
      (1080, 1920)).2.1 = 0 := by
  refine (dead_zone_speeds defaultTrackConfig c2course 0 c2bbox (1080, 1920)
    (by norm_num [defaultTrackConfig]) (by norm_num [defaultTrackConfig])).1 ?_
  norm_num [RacerTracker.normErrorY, c2bbox, defaultTrackConfig]
